/-
Verification of the ttstats match-completion pipeline against its
natural-language specification.

The definitions below are a shallow embedding of the Python source:
  * src/ttstats/pingpong/models.py   (Match / Game / Player / confirmation logic)
  * src/ttstats/pingpong/elo.py      (Elo rating engine and idempotency guards)
  * src/ttstats/pingpong/signals.py  (match-completion signal handler)
  * src/ttstats/pingpong/management/commands/recalculate_elo.py (batch replay)

Database rows become Lean structures, querysets become lists, and the
stateful update functions become explicit state-passing functions.
Integer model fields are ℤ / Nat; the floating-point Elo arithmetic is
modelled with real numbers and an explicit half-to-even rounding function
mirroring Python's built-in round.

Every user account created through the application receives a UserProfile
via the create_user_profile post_save signal (signals.py), so a linked
account is modelled with a (non-optional) profile.
-/
import Mathlib

namespace TTStats

/-- UserProfile (models.py): only the email_verified flag matters to the
confirmation pipeline. -/
structure Profile where
  email_verified : Bool
  deriving Repr, DecidableEq

/-- A Django auth User as seen by the pipeline: an email address and the
auto-created profile. -/
structure Account where
  email : String
  profile : Profile
  deriving Repr, DecidableEq

/-- Player (models.py): optional linked account plus the three Elo fields. -/
structure Player where
  id : Nat
  user : Option Account
  elo_rating : Int
  elo_peak : Int
  matches_for_elo : Nat
  deriving Repr, DecidableEq

/-- Team (models.py): the many-to-many players relation, as the list of
member player ids. -/
structure Team where
  id : Nat
  players : List Nat
  deriving Repr, DecidableEq

/-- Game (models.py): per-game scores and the stored winner field
(a team id, null when undecided). -/
structure Game where
  game_number : Nat
  team1_score : Nat
  team2_score : Nat
  winner : Option Nat
  deriving Repr, DecidableEq

/-- Match (models.py): the fields consumed by the completion pipeline.
`winner` stores a team id (SET_NULL foreign key). -/
structure Match where
  id : Nat
  team1 : Team
  team2 : Team
  match_type : String
  best_of : Nat
  winner : Option Nat
  deriving Repr, DecidableEq

/-- EloHistory (models.py): one audit row per (match, player). -/
structure EloHistoryRow where
  match_id : Nat
  player_id : Nat
  old_rating : Int
  new_rating : Int
  rating_change : Int
  k_factor : ℝ

/-- The mutable database state the pipeline reads and writes: the player
table, the MatchConfirmation rows (match id, player id) and the EloHistory
table. -/
structure State where
  players : List Player
  confirmations : List (Nat × Nat)
  elo_history : List EloHistoryRow

/-- Resolution of `list(team.players.all())` against the player table: the
team's member ids looked up in the state. -/
def getPlayers (st : State) (ids : List Nat) : List Player :=
  ids.filterMap fun i => st.players.find? fun p => p.id = i

/-- Truth of `player.user and player.user.profile.email_verified`: the
player has a linked account whose email is verified. -/
def playerVerified (p : Player) : Bool :=
  match p.user with
  | some u => u.profile.email_verified
  | none => false

/-- The player ids holding a MatchConfirmation row for the match
(`{c.id for c in self.confirmations.all()}`). -/
def confirmedIds (st : State) (m : Match) : List Nat :=
  (st.confirmations.filter fun c => c.1 = m.id).map (·.2)

/-- Match.team1_confirmed (models.py): filter team 1's members to the
verified ones, succeed if their ids are a subset of the confirmed ids,
otherwise fall back to `all_unverified` computed over that same
(already verified-filtered) queryset. -/
def team1_confirmed (st : State) (m : Match) : Bool :=
  let team1_players := (getPlayers st m.team1.players).filter playerVerified
  let team1_ids := team1_players.map (·.id)
  let confirmed_ids := confirmedIds st m
  if team1_ids.all (fun i => confirmed_ids.contains i) then
    true
  else
    team1_players.all fun p => !(playerVerified p)

/-- Match.team2_confirmed (models.py): same computation over team 2. -/
def team2_confirmed (st : State) (m : Match) : Bool :=
  let team2_players := (getPlayers st m.team2.players).filter playerVerified
  let team2_ids := team2_players.map (·.id)
  let confirmed_ids := confirmedIds st m
  if team2_ids.all (fun i => confirmed_ids.contains i) then
    true
  else
    team2_players.all fun p => !(playerVerified p)

/-- Match.match_confirmed (models.py): both teams confirmed. -/
def match_confirmed (st : State) (m : Match) : Bool :=
  team1_confirmed st m && team2_confirmed st m

/-- Match.should_auto_confirm (models.py): false when there is no winner or
the match is already fully confirmed; otherwise true when at least one
team has no member with a verified linked account. -/
def should_auto_confirm (st : State) (m : Match) : Bool :=
  if m.winner = none || match_confirmed st m then
    false
  else
    let team1_all_unverified :=
      (getPlayers st m.team1.players).all fun p => !(playerVerified p)
    let team2_all_unverified :=
      (getPlayers st m.team2.players).all fun p => !(playerVerified p)
    team1_all_unverified || team2_all_unverified

/-- Spec-side definition (§4.2): a side is confirmed when every one of its
verified members has an explicit Confirmation row; a side with zero
verified members is trivially confirmed. -/
def sideConfirmedSpec (st : State) (m : Match) (sidePlayers : List Nat) : Bool :=
  (getPlayers st sidePlayers).all fun p =>
    !(playerVerified p) || (confirmedIds st m).contains p.id

/-- A side is entirely unverified: no member has a verified linked account. -/
def sideAllUnverified (st : State) (sidePlayers : List Nat) : Bool :=
  (getPlayers st sidePlayers).all fun p => !(playerVerified p)

/-- Subset-check over the verified-filtered ids, rephrased over the whole
member list. -/
lemma filter_map_all_contains (G : List Player) (C : List Nat) :
    (((G.filter playerVerified).map (·.id)).all fun i => C.contains i)
      = G.all fun p => !(playerVerified p) || C.contains p.id := by
  induction G with
  | nil => rfl
  | cons p t ih =>
    by_cases hv : playerVerified p
    · simp only [List.filter_cons, hv, if_pos, List.map_cons, List.all_cons,
        Bool.not_true, Bool.false_or, ih]
    · have hv' : playerVerified p = false := Bool.eq_false_iff.2 hv
      rw [List.filter_cons_of_neg (by simp [hv']), ih, List.all_cons, hv']
      simp

/-- The whole confirmation body (subset check with the `all_unverified`
fallback) equals the spec's formulation. -/
lemma confirmBody_eq (G : List Player) (C : List Nat) :
    (if ((G.filter playerVerified).map (·.id)).all (fun i => C.contains i)
      then true
      else (G.filter playerVerified).all fun p => !(playerVerified p))
      = G.all fun p => !(playerVerified p) || C.contains p.id := by
  rw [filter_map_all_contains]
  by_cases hA : (G.all fun p => !(playerVerified p) || C.contains p.id) = true
  · rw [if_pos hA, hA]
  · rw [if_neg hA]
    have hA0 : (G.all fun p => !(playerVerified p) || C.contains p.id) = false :=
      Bool.eq_false_iff.2 hA
    rw [hA0]
    rw [List.all_eq_false] at hA0
    obtain ⟨p, hpG, hp⟩ := hA0
    simp only [Bool.or_eq_true, not_or, Bool.not_eq_true] at hp
    obtain ⟨hv, hc⟩ := hp
    simp at hv
    rw [List.all_eq_false]
    refine ⟨p, List.mem_filter.2 ⟨hpG, hv⟩, ?_⟩
    simp [hv]

theorem team1_confirmed_eq_spec (st : State) (m : Match) :
    team1_confirmed st m = sideConfirmedSpec st m m.team1.players := by
  simp only [team1_confirmed, sideConfirmedSpec]
  exact confirmBody_eq _ _

theorem team2_confirmed_eq_spec (st : State) (m : Match) :
    team2_confirmed st m = sideConfirmedSpec st m m.team2.players := by
  simp only [team2_confirmed, sideConfirmedSpec]
  exact confirmBody_eq _ _

/-- C5: a side is reported as confirmed (team1_confirmed / team2_confirmed)
iff every member of that side with a linked, email-verified account has a
Confirmation row for the match; in particular a side with zero verified
members is always reported as confirmed, regardless of which confirmation
rows exist. -/
theorem side_confirmed_iff_verified_members_confirmed (st : State) (m : Match) :
    (team1_confirmed st m = true ↔
      ∀ p ∈ getPlayers st m.team1.players, playerVerified p = true →
        p.id ∈ confirmedIds st m) ∧
    (team2_confirmed st m = true ↔
      ∀ p ∈ getPlayers st m.team2.players, playerVerified p = true →
        p.id ∈ confirmedIds st m) ∧
    ((∀ p ∈ getPlayers st m.team1.players, playerVerified p = false) →
      team1_confirmed st m = true) ∧
    ((∀ p ∈ getPlayers st m.team2.players, playerVerified p = false) →
      team2_confirmed st m = true) := by
  have h1 : team1_confirmed st m = true ↔
      ∀ p ∈ getPlayers st m.team1.players, playerVerified p = true →
        p.id ∈ confirmedIds st m := by
    rw [team1_confirmed_eq_spec]
    simp only [sideConfirmedSpec, List.all_eq_true, Bool.or_eq_true,
      Bool.not_eq_true', List.elem_iff]
    constructor
    · intro h p hp hv
      rcases h p hp with h' | h'
      · rw [hv] at h'; cases h'
      · exact h'
    · intro h p hp
      by_cases hv : playerVerified p = true
      · exact Or.inr (h p hp hv)
      · exact Or.inl (Bool.eq_false_iff.2 hv)
  have h2 : team2_confirmed st m = true ↔
      ∀ p ∈ getPlayers st m.team2.players, playerVerified p = true →
        p.id ∈ confirmedIds st m := by
    rw [team2_confirmed_eq_spec]
    simp only [sideConfirmedSpec, List.all_eq_true, Bool.or_eq_true,
      Bool.not_eq_true', List.elem_iff]
    constructor
    · intro h p hp hv
      rcases h p hp with h' | h'
      · rw [hv] at h'; cases h'
      · exact h'
    · intro h p hp
      by_cases hv : playerVerified p = true
      · exact Or.inr (h p hp hv)
      · exact Or.inl (Bool.eq_false_iff.2 hv)
  refine ⟨h1, h2, ?_, ?_⟩
  · intro hall
    exact h1.2 fun p hp hv => by rw [hall p hp] at hv; cases hv
  · intro hall
    exact h2.2 fun p hp hv => by rw [hall p hp] at hv; cases hv

/-- C4: should_auto_confirm returns True exactly when the match has a
non-null winner, is not yet fully confirmed, and at least one of the two
sides has no member with a verified linked account. -/
theorem should_auto_confirm_iff (st : State) (m : Match) :
    should_auto_confirm st m = true ↔
      m.winner ≠ none ∧ match_confirmed st m = false ∧
        (sideAllUnverified st m.team1.players = true ∨
          sideAllUnverified st m.team2.players = true) := by
  unfold should_auto_confirm sideAllUnverified
  by_cases hw : m.winner = none
  · simp [hw]
  · by_cases hc : match_confirmed st m
    · simp [hw, hc]
    · have hc' : match_confirmed st m = false := Bool.eq_false_iff.2 hc
      simp [hw, hc']

/-! ## Game aggregation: Game.save and Match.save (models.py) -/

/-- Game.save (models.py): derive the stored winner from the two scores;
a tied game leaves the previously stored winner field untouched. -/
def game_save_winner (m : Match) (g : Game) : Game :=
  if g.team1_score > g.team2_score then { g with winner := some m.team1.id }
  else if g.team2_score > g.team1_score then { g with winner := some m.team2.id }
  else g

/-- The winner recomputation in Match.save (models.py, existing match):
count the games whose stored winner is team1 / team2 and set the winner
when a count reaches `best_of // 2 + 1`; otherwise the winner field is
left exactly as it was. -/
def match_save_winner (games : List Game) (m : Match) : Match :=
  let t1_wins := (games.filter fun g => g.winner = some m.team1.id).length
  let t2_wins := (games.filter fun g => g.winner = some m.team2.id).length
  let games_to_win := m.best_of / 2 + 1
  if t1_wins ≥ games_to_win then { m with winner := some m.team1.id }
  else if t2_wins ≥ games_to_win then { m with winner := some m.team2.id }
  else m

/-- Abstract side of a match, for the spec-level aggregator. -/
inductive Side where
  | A
  | B
  deriving Repr, DecidableEq

/-- Modelled from the spec (§4.1 Game Aggregator): count games where
scoreA > scoreB as wins for side A, scoreB > scoreA as wins for side B
(ties count for neither); return the side whose count reaches
`gamesToWin = floor(bestOf/2) + 1`, otherwise no decision. -/
def recomputeWinner_spec (scores : List (Nat × Nat)) (best_of : Nat) : Option Side :=
  let games_to_win := best_of / 2 + 1
  let winsA := (scores.filter fun s => s.1 > s.2).length
  let winsB := (scores.filter fun s => s.2 > s.1).length
  if winsA ≥ games_to_win then some .A
  else if winsB ≥ games_to_win then some .B
  else none

/-- The team id a spec-level side denotes on a given match. -/
def sideTeamId (m : Match) : Side → Nat
  | .A => m.team1.id
  | .B => m.team2.id

/-- Game rows as produced by saving fresh games with the given score pairs:
each starts with a null stored winner and goes through Game.save, with
consecutive game numbers from `n`. -/
def freshGamesAux (m : Match) (n : Nat) : List (Nat × Nat) → List Game
  | [] => []
  | s :: t =>
    game_save_winner m
      { game_number := n, team1_score := s.1, team2_score := s.2, winner := none }
      :: freshGamesAux m (n + 1) t

/-- Fresh game rows for the given scores, numbered from 1. -/
def freshGames (m : Match) (scores : List (Nat × Nat)) : List Game :=
  freshGamesAux m 1 scores

lemma game_save_winner_fresh (m : Match) (n a b : Nat) :
    (game_save_winner m
        { game_number := n, team1_score := a, team2_score := b,
          winner := none }).winner
      = if a > b then some m.team1.id
        else if b > a then some m.team2.id else none := by
  unfold game_save_winner
  by_cases h1 : a > b
  · simp [h1]
  · by_cases h2 : b > a
    · simp [h1, h2]
    · simp [h1, h2]

lemma freshGamesAux_filter_team1 (m : Match) (hne : m.team1.id ≠ m.team2.id)
    (scores : List (Nat × Nat)) (n : Nat) :
    ((freshGamesAux m n scores).filter fun g => g.winner = some m.team1.id).length
      = (scores.filter fun s => s.1 > s.2).length := by
  induction scores generalizing n with
  | nil => rfl
  | cons s t ih =>
    simp only [freshGamesAux, List.filter_cons, game_save_winner_fresh]
    by_cases h1 : s.1 > s.2
    · simp [game_save_winner_fresh, h1, ih (n + 1)]
    · by_cases h2 : s.2 > s.1
      · simp [game_save_winner_fresh, h1, h2, Ne.symm hne, ih (n + 1)]
      · simp [game_save_winner_fresh, h1, h2, ih (n + 1)]

lemma freshGamesAux_filter_team2 (m : Match) (hne : m.team1.id ≠ m.team2.id)
    (scores : List (Nat × Nat)) (n : Nat) :
    ((freshGamesAux m n scores).filter fun g => g.winner = some m.team2.id).length
      = (scores.filter fun s => s.2 > s.1).length := by
  induction scores generalizing n with
  | nil => rfl
  | cons s t ih =>
    simp only [freshGamesAux, List.filter_cons, game_save_winner_fresh]
    by_cases h1 : s.1 > s.2
    · simp [game_save_winner_fresh, h1, hne, Nat.lt_asymm h1, ih (n + 1)]
    · by_cases h2 : s.2 > s.1
      · simp [game_save_winner_fresh, h1, h2, ih (n + 1)]
      · simp [game_save_winner_fresh, h1, h2, ih (n + 1)]

/-- C3 counterexample: a match that already has a stored winner (team 10),
best-of 5, whose games have all been deleted: neither side has
floor(best_of/2)+1 = 3 game wins, yet re-running the winner recomputation
leaves the winner set instead of reverting it to None. -/
theorem match_save_winner_no_revert_counterexample :
    (([] : List Game).filter fun g =>
        g.winner = some (10 : Nat)).length < 5 / 2 + 1 ∧
    (([] : List Game).filter fun g =>
        g.winner = some (20 : Nat)).length < 5 / 2 + 1 ∧
    (match_save_winner []
        { id := 2, team1 := { id := 10, players := [1] },
          team2 := { id := 20, players := [2] }, match_type := "casual",
          best_of := 5, winner := some 10 }).winner = some 10 := by
  refine ⟨by decide, by decide, rfl⟩

/-- C3 (amended): when neither side's stored-winner game count reaches
floor(best_of/2)+1, Match.save leaves the match record — in particular its
winner — entirely unchanged; it never resets the winner to None. -/
theorem match_save_winner_below_threshold_unchanged (games : List Game) (m : Match)
    (h1 : (games.filter fun g => g.winner = some m.team1.id).length
        < m.best_of / 2 + 1)
    (h2 : (games.filter fun g => g.winner = some m.team2.id).length
        < m.best_of / 2 + 1) :
    match_save_winner games m = m := by
  unfold match_save_winner
  rw [if_neg (by omega), if_neg (by omega)]

/-- Witness for the amended C3 theorem at a concrete match with its games
deleted. -/
theorem match_save_winner_below_threshold_unchanged_witness :
    match_save_winner []
        { id := 2, team1 := { id := 10, players := [1] },
          team2 := { id := 20, players := [2] }, match_type := "casual",
          best_of := 5, winner := some 10 }
      = { id := 2, team1 := { id := 10, players := [1] },
          team2 := { id := 20, players := [2] }, match_type := "casual",
          best_of := 5, winner := some 10 } :=
  match_save_winner_below_threshold_unchanged [] _ (by decide) (by decide)

/-- C7 counterexample: with best_of = 5 (odd) and a single 11–5 game,
neither count reaches gamesToWin = 3, so the reference definition returns
no decision (None); but on a match whose winner field was previously set,
the recomputation keeps the old winner, so the recomputed winner differs
from the reference value. -/
theorem match_save_winner_ne_reference_counterexample :
    Odd (5 : Nat) ∧
    recomputeWinner_spec [(11, 5)] 5 = none ∧
    (match_save_winner
        (freshGames
          { id := 1, team1 := { id := 10, players := [1] },
            team2 := { id := 20, players := [2] }, match_type := "casual",
            best_of := 5, winner := some 10 }
          [(11, 5)])
        { id := 1, team1 := { id := 10, players := [1] },
          team2 := { id := 20, players := [2] }, match_type := "casual",
          best_of := 5, winner := some 10 }).winner = some 10 := by
  refine ⟨by decide, rfl, rfl⟩

/-- C7 (amended): for every list of score pairs saved as fresh games and
every odd best_of ≥ 1, the recomputed winner agrees with the reference
definition — counting a game for side A iff scoreA > scoreB and for side B
iff scoreB > scoreA, ties counting for neither and raising no error, the
winner being the side whose count reaches floor(best_of/2)+1 — except
that when neither count reaches the threshold the stored winner is left
unchanged (so it is None exactly when no winner had been stored). -/
theorem match_save_winner_eq_aggregator (scores : List (Nat × Nat)) (m : Match)
    (hodd : Odd m.best_of) (hpos : 1 ≤ m.best_of)
    (hne : m.team1.id ≠ m.team2.id) :
    (match_save_winner (freshGames m scores) m).winner =
      match recomputeWinner_spec scores m.best_of with
      | some s => some (sideTeamId m s)
      | none => m.winner := by
  unfold match_save_winner recomputeWinner_spec freshGames
  rw [freshGamesAux_filter_team1 m hne scores 1,
    freshGamesAux_filter_team2 m hne scores 1]
  by_cases h1 : (scores.filter fun s => s.1 > s.2).length ≥ m.best_of / 2 + 1
  · simp [h1, sideTeamId]
  · by_cases h2 : (scores.filter fun s => s.2 > s.1).length ≥ m.best_of / 2 + 1
    · simp [h1, h2, sideTeamId]
    · simp [h1, h2]

/-- Witness for the amended C7 theorem: three 11–x games in a best-of-5
match decide it for side A (team 10). -/
theorem match_save_winner_eq_aggregator_witness :
    (match_save_winner
        (freshGames
          { id := 3, team1 := { id := 10, players := [1] },
            team2 := { id := 20, players := [2] }, match_type := "casual",
            best_of := 5, winner := none }
          [(11, 5), (11, 7), (11, 9)])
        { id := 3, team1 := { id := 10, players := [1] },
          team2 := { id := 20, players := [2] }, match_type := "casual",
          best_of := 5, winner := none }).winner = some 10 := by
  rw [match_save_winner_eq_aggregator [(11, 5), (11, 7), (11, 9)]
    { id := 3, team1 := { id := 10, players := [1] },
      team2 := { id := 20, players := [2] }, match_type := "casual",
      best_of := 5, winner := none }
    (by decide) (by decide) (by decide)]
  rfl

/-! ## Elo rating engine (elo.py) -/

/-- calculate_k_factor (elo.py): base 32 scaled by match-type, best-of and
new-player multipliers. -/
noncomputable def calculate_k_factor (m : Match) (p : Player) : ℝ :=
  let base_k : ℝ := 32
  let type_multiplier : ℝ := if m.match_type = "tournament" then 1.5 else 1.0
  let best_of_multiplier : ℝ :=
    if m.best_of = 3 then 0.9
    else if m.best_of = 5 then 1.0
    else if m.best_of = 7 then 1.1
    else 1.0
  let experience_multiplier : ℝ := if p.matches_for_elo < 20 then 1.5 else 1.0
  base_k * type_multiplier * best_of_multiplier * experience_multiplier

/-- calculate_expected_score (elo.py): probability of A winning under the
Elo formula. -/
noncomputable def calculate_expected_score (rating_a rating_b : ℝ) : ℝ :=
  1 / (1 + (10 : ℝ) ^ ((rating_b - rating_a) / 400))

/-- Python's built-in round on the real value of its argument: round half
to even. -/
noncomputable def pyround (x : ℝ) : ℤ :=
  if Int.fract x < 1 / 2 then ⌊x⌋
  else if 1 / 2 < Int.fract x then ⌊x⌋ + 1
  else if Even ⌊x⌋ then ⌊x⌋ else ⌊x⌋ + 1

/-- calculate_elo_change (elo.py): raw Elo point change, rounded as Python
rounds. -/
noncomputable def calculate_elo_change (r1 r2 actual_score k_factor : ℝ) : ℤ :=
  pyround (k_factor * (actual_score - calculate_expected_score r1 r2))

/-- The reasons update_player_elo skips a match without touching state. -/
inductive SkipReason where
  | no_winner
  | not_confirmed
  | already_rated
  | empty_team
  deriving Repr, DecidableEq

/-- Outcome of one call to update_player_elo: ratings applied, a guarded
no-op skip, or an unhandled IndexError escaping the function. -/
inductive EloResult where
  | applied
  | skipped (reason : SkipReason)
  | indexError
  deriving Repr, DecidableEq

/-- Effect of `p.save(...)`: write one player row back into the player
table. -/
def savePlayer (players : List Player) (q : Player) : List Player :=
  players.map fun r => if r.id = q.id then q else r

/-- The per-team update loop of update_player_elo (elo.py steps 5 and 6):
apply the same delta to every snapshot player of the team, bump the peak
and rated-match count, and append one EloHistory row each. -/
noncomputable def applyTeamUpdates (st : State) (m : Match)
    (team_players : List Player) (change : ℤ) (k_team : ℝ) : State :=
  team_players.foldl
    (fun acc p =>
      let old_rating := p.elo_rating
      let new_rating := p.elo_rating + change
      { acc with
        players := savePlayer acc.players
          { p with
            elo_rating := new_rating,
            elo_peak := max p.elo_peak new_rating,
            matches_for_elo := p.matches_for_elo + 1 },
        elo_history := acc.elo_history ++
          [{ match_id := m.id, player_id := p.id, old_rating := old_rating,
             new_rating := new_rating, rating_change := change,
             k_factor := k_team }] })
    st

/-- Steps 2–6 of update_player_elo (elo.py), once the team ratings r1, r2
have been determined: outcome, per-team K-factors, deltas, and the two
update loops. -/
noncomputable def eloApply (st : State) (m : Match)
    (team1_players team2_players : List Player) (r1 r2 : ℝ) :
    State × EloResult :=
  let s1 : ℝ := if m.winner = some m.team1.id then 1 else 0
  let s2 : ℝ := 1 - s1
  let k1_team : ℝ :=
    (team1_players.map (calculate_k_factor m)).sum / team1_players.length
  let k2_team : ℝ :=
    (team2_players.map (calculate_k_factor m)).sum / team2_players.length
  let elo_change_1 := calculate_elo_change r1 r2 s1 k1_team
  let elo_change_2 := calculate_elo_change r2 r1 s2 k2_team
  let st1 := applyTeamUpdates st m team1_players elo_change_1 k1_team
  let st2 := applyTeamUpdates st1 m team2_players elo_change_2 k2_team
  (st2, .applied)

/-- update_player_elo (elo.py): the three eligibility guards in order, the
doubles detection with its empty-team guard, then the rating application.
In the 1v1 branch indexing `team1_players[0]` / `team2_players[0]` on an
empty list is an unhandled IndexError. -/
noncomputable def update_player_elo (st : State) (m : Match) :
    State × EloResult :=
  if m.winner = none then (st, .skipped .no_winner)
  else if !(match_confirmed st m) then (st, .skipped .not_confirmed)
  else if st.elo_history.any (fun h => h.match_id = m.id) then
    (st, .skipped .already_rated)
  else
    let team1_players := getPlayers st m.team1.players
    let team2_players := getPlayers st m.team2.players
    let is_double := team1_players.length > 1 || team2_players.length > 1
    if is_double then
      if team1_players.isEmpty || team2_players.isEmpty then
        (st, .skipped .empty_team)
      else
        let r1 : ℝ :=
          (team1_players.map fun p => (p.elo_rating : ℝ)).sum
            / team1_players.length
        let r2 : ℝ :=
          (team2_players.map fun p => (p.elo_rating : ℝ)).sum
            / team2_players.length
        eloApply st m team1_players team2_players r1 r2
    else
      match team1_players, team2_players with
      | p1 :: t1, p2 :: t2 =>
        eloApply st m (p1 :: t1) (p2 :: t2)
          ((p1.elo_rating : ℝ)) ((p2.elo_rating : ℝ))
      | _, _ => (st, .indexError)

/-- C9: the three eligibility preconditions are checked in order with
short-circuiting, and each failed precondition yields a skip with that
reason — no exception, and no mutation of player or history state. -/
theorem update_player_elo_guard_order (st : State) (m : Match) :
    (m.winner = none → update_player_elo st m = (st, .skipped .no_winner)) ∧
    (m.winner ≠ none → match_confirmed st m = false →
      update_player_elo st m = (st, .skipped .not_confirmed)) ∧
    (m.winner ≠ none → match_confirmed st m = true →
      (∃ r ∈ st.elo_history, r.match_id = m.id) →
      update_player_elo st m = (st, .skipped .already_rated)) := by
  refine ⟨?_, ?_, ?_⟩
  · intro hw
    unfold update_player_elo
    rw [if_pos hw]
  · intro hw hc
    unfold update_player_elo
    rw [if_neg hw, if_pos (by rw [hc]; rfl)]
  · intro hw hc hh
    unfold update_player_elo
    rw [if_neg hw, if_neg (by rw [hc]; simp),
      if_pos (List.any_eq_true.2 (by
        obtain ⟨r, hr, hrm⟩ := hh
        exact ⟨r, hr, by simp [hrm]⟩))]

/-- Witness for C9: each of the three guards observed skipping on a
concrete state. -/
theorem update_player_elo_guard_order_witness :
    (update_player_elo ⟨[], [], []⟩
        { id := 1, team1 := { id := 10, players := [] },
          team2 := { id := 20, players := [] }, match_type := "casual",
          best_of := 5, winner := none }
      = (⟨[], [], []⟩, .skipped .no_winner)) ∧
    (update_player_elo
        ⟨[{ id := 7,
            user := some ({ email := "a@b.c",
                            profile := { email_verified := true } }),
            elo_rating := 1500, elo_peak := 1500, matches_for_elo := 0 }],
          [], []⟩
        { id := 2, team1 := { id := 10, players := [7] },
          team2 := { id := 20, players := [] }, match_type := "casual",
          best_of := 5, winner := some 10 }
      = (⟨[{ id := 7,
             user := some ({ email := "a@b.c",
                             profile := { email_verified := true } }),
             elo_rating := 1500, elo_peak := 1500, matches_for_elo := 0 }],
          [], []⟩, .skipped .not_confirmed)) ∧
    (update_player_elo
        ⟨[], [],
          [{ match_id := 3, player_id := 7, old_rating := 1500,
             new_rating := 1516, rating_change := 16, k_factor := 32 }]⟩
        { id := 3, team1 := { id := 10, players := [] },
          team2 := { id := 20, players := [] }, match_type := "casual",
          best_of := 5, winner := some 10 }
      = (⟨[], [],
          [{ match_id := 3, player_id := 7, old_rating := 1500,
             new_rating := 1516, rating_change := 16, k_factor := 32 }]⟩,
          .skipped .already_rated)) := by
  refine ⟨?_, ?_, ?_⟩
  · exact (update_player_elo_guard_order _ _).1 rfl
  · exact (update_player_elo_guard_order _ _).2.1 (by simp) (by decide)
  · exact (update_player_elo_guard_order _ _).2.2 (by simp) (by decide)
      ⟨_, List.mem_singleton.2 rfl, rfl⟩

/-- C1: once an EloHistory row exists for a match, a further sequential
call of update_player_elo on that match leaves the entire state — every
player's elo_rating, elo_peak and matches_for_elo, and the EloHistory
table — unchanged. -/
theorem update_player_elo_idempotent (st : State) (m : Match)
    (h : ∃ r ∈ st.elo_history, r.match_id = m.id) :
    (update_player_elo st m).1 = st := by
  unfold update_player_elo
  by_cases hw : m.winner = none
  · rw [if_pos hw]
  · rw [if_neg hw]
    by_cases hc : match_confirmed st m
    · rw [if_neg (by rw [hc]; simp), if_pos (List.any_eq_true.2 (by
        obtain ⟨r, hr, hrm⟩ := h
        exact ⟨r, hr, by simp [hrm]⟩))]
    · rw [if_pos (by simp [Bool.eq_false_iff.2 hc])]

/-- Witness for C1: a state already holding a history row for match 3 is
returned untouched. -/
theorem update_player_elo_idempotent_witness :
    (∃ r ∈ (⟨[], [],
        [{ match_id := 3, player_id := 8, old_rating := 1500,
           new_rating := 1516, rating_change := 16,
           k_factor := 32 }]⟩ : State).elo_history, r.match_id = 3) ∧
    (update_player_elo
        ⟨[], [],
          [{ match_id := 3, player_id := 8, old_rating := 1500,
             new_rating := 1516, rating_change := 16, k_factor := 32 }]⟩
        { id := 3, team1 := { id := 11, players := [] },
          team2 := { id := 21, players := [] }, match_type := "casual",
          best_of := 5, winner := some 11 }).1
      = ⟨[], [],
          [{ match_id := 3, player_id := 8, old_rating := 1500,
             new_rating := 1516, rating_change := 16, k_factor := 32 }]⟩ :=
  ⟨⟨_, List.mem_singleton.2 rfl, rfl⟩,
    update_player_elo_idempotent _ _ ⟨_, List.mem_singleton.2 rfl, rfl⟩⟩

/-- C10: the empty-team guard only covers the doubles branch — for a match
that passes all three eligibility guards, whose teams both resolve to at
most one player, and where at least one team resolves to no players,
update_player_elo hits an unhandled IndexError on `team1_players[0]` /
`team2_players[0]` instead of returning as a guarded no-op. -/
theorem update_player_elo_singles_empty_team_index_error (st : State)
    (m : Match) (hw : m.winner ≠ none) (hc : match_confirmed st m = true)
    (hh : ¬ ∃ r ∈ st.elo_history, r.match_id = m.id)
    (h1 : (getPlayers st m.team1.players).length ≤ 1)
    (h2 : (getPlayers st m.team2.players).length ≤ 1)
    (he : getPlayers st m.team1.players = [] ∨
      getPlayers st m.team2.players = []) :
    update_player_elo st m = (st, .indexError) := by
  unfold update_player_elo
  rw [if_neg hw, if_neg (by rw [hc]; simp), if_neg (by
    intro hany
    obtain ⟨r, hr, hrm⟩ := List.any_eq_true.1 hany
    exact hh ⟨r, hr, by simpa using hrm⟩)]
  have hd : ((getPlayers st m.team1.players).length > 1 ||
      (getPlayers st m.team2.players).length > 1) = false := by
    simp only [Bool.or_eq_false_iff]
    constructor
    · simp [Nat.not_lt.2 h1]
    · simp [Nat.not_lt.2 h2]
  simp only [hd, Bool.false_eq_true, if_false]
  rcases he with he | he
  · rw [he]
  · rcases ht1 : getPlayers st m.team1.players with _ | ⟨p1, t1⟩
    · rfl
    · rw [he]

/-- Witness for C10: a confirmed match whose team 1 resolves to no players
and team 2 to one unverified player raises the IndexError. -/
theorem update_player_elo_singles_empty_team_index_error_witness :
    update_player_elo
        ⟨[{ id := 9, user := none, elo_rating := 1500, elo_peak := 1500,
            matches_for_elo := 0 }],
          [], []⟩
        { id := 4, team1 := { id := 12, players := [] },
          team2 := { id := 22, players := [9] }, match_type := "casual",
          best_of := 5, winner := some 12 }
      = (⟨[{ id := 9, user := none, elo_rating := 1500, elo_peak := 1500,
             matches_for_elo := 0 }],
          [], []⟩, .indexError) := by
  apply update_player_elo_singles_empty_team_index_error
  · simp
  · decide
  · simp
  · decide
  · decide
  · left
    decide

/-- The inverse-argument expected score is the complement. -/
lemma inv_compl_key (a : ℝ) (ha : 0 < a) : 1 / (1 + a⁻¹) = 1 - 1 / (1 + a) := by
  have h1 : a ≠ 0 := ne_of_gt ha
  have h2 : (1 : ℝ) + a ≠ 0 := by positivity
  have e1 : (1 : ℝ) + a⁻¹ = (1 + a) / a := by
    rw [eq_div_iff h1, add_mul, inv_mul_cancel₀ h1]
    ring
  rw [e1, one_div_div, eq_sub_iff_add_eq, div_add_div_same, add_comm,
    div_self h2]

lemma expected_score_compl (r1 r2 : ℝ) :
    calculate_expected_score r2 r1 = 1 - calculate_expected_score r1 r2 := by
  unfold calculate_expected_score
  rw [show (r1 - r2) / 400 = -((r2 - r1) / 400) by ring,
    Real.rpow_neg (by norm_num : (0 : ℝ) ≤ 10)]
  exact inv_compl_key _ (Real.rpow_pos_of_pos (by norm_num) _)

lemma pyround_intCast (n : ℤ) : pyround (n : ℝ) = n := by
  unfold pyround
  rw [Int.fract_intCast]
  norm_num

/-- Python's half-to-even rounding is symmetric about zero (unlike
Mathlib's `round`, which rounds halves up). -/
lemma pyround_neg (x : ℝ) : pyround (-x) = - pyround x := by
  by_cases h0 : Int.fract x = 0
  · have hx : x = (⌊x⌋ : ℝ) := by
      have := Int.floor_add_fract x
      rw [h0] at this
      linarith
    rw [hx, show -((⌊x⌋ : ℝ)) = ((-⌊x⌋ : ℤ) : ℝ) by push_cast; ring,
      pyround_intCast, pyround_intCast]
  · have hfr : Int.fract (-x) = 1 - Int.fract x := Int.fract_neg h0
    have hfl : ⌊-x⌋ = -⌊x⌋ - 1 := by
      have h1 : ((⌊-x⌋ : ℤ) : ℝ) = -x - Int.fract (-x) := by
        rw [Int.self_sub_fract]
      have h2 : ((⌊x⌋ : ℤ) : ℝ) = x - Int.fract x := by
        rw [Int.self_sub_fract]
      have hc : ((⌊-x⌋ : ℤ) : ℝ) = ((-⌊x⌋ - 1 : ℤ) : ℝ) := by
        rw [h1, hfr]
        push_cast
        linarith
      exact_mod_cast hc
    have hpos : 0 < Int.fract x :=
      lt_of_le_of_ne (Int.fract_nonneg x) (Ne.symm h0)
    rcases lt_trichotomy (Int.fract x) (1 / 2) with hlt | heq | hgt
    · unfold pyround
      rw [hfr, hfl, if_pos hlt, if_neg (by linarith), if_pos (by linarith)]
      ring
    · have hpar : Even (-⌊x⌋ - 1) ↔ ¬ Even ⌊x⌋ := by
        rw [show -⌊x⌋ - 1 = -(⌊x⌋ + 1) by ring, even_neg,
          Int.even_add_one]
      unfold pyround
      rw [hfr, hfl, heq, show (1 : ℝ) - 1 / 2 = 1 / 2 by norm_num,
        if_neg (lt_irrefl _), if_neg (lt_irrefl _), if_neg (lt_irrefl _),
        if_neg (lt_irrefl _)]
      by_cases he : Even ⌊x⌋
      · rw [if_neg (by rw [hpar]; exact not_not_intro he), if_pos he]
        ring
      · rw [if_pos (hpar.2 he), if_neg he]
        ring
    · unfold pyround
      rw [hfr, hfl, if_pos (by linarith), if_neg (by linarith),
        if_pos hgt]
      ring

/-- C6: the winner-side and loser-side deltas, each computed against the
other side's effective rating, are exact negatives of each other whenever
the two sides use the same K-factor; with differing K-factors the deltas
need not cancel, witnessed at equal ratings with K = 32 versus K = 48. -/
theorem elo_change_negation_iff_equal_k :
    (∀ r1 r2 k : ℝ,
      calculate_elo_change r1 r2 1 k = - calculate_elo_change r2 r1 0 k) ∧
    calculate_elo_change 1500 1500 1 32 ≠
      - calculate_elo_change 1500 1500 0 48 := by
  have hsymm : ∀ r1 r2 k : ℝ,
      calculate_elo_change r2 r1 0 k = - calculate_elo_change r1 r2 1 k := by
    intro r1 r2 k
    unfold calculate_elo_change
    rw [expected_score_compl]
    rw [show k * (0 - (1 - calculate_expected_score r1 r2))
        = -(k * (1 - calculate_expected_score r1 r2)) by ring]
    exact pyround_neg _
  refine ⟨fun r1 r2 k => by rw [hsymm r1 r2 k, neg_neg], ?_⟩
  have hself : calculate_expected_score (1500 : ℝ) 1500 = 1 / 2 := by
    unfold calculate_expected_score
    rw [show ((1500 : ℝ) - 1500) / 400 = 0 by ring, Real.rpow_zero]
    norm_num
  have e1 : calculate_elo_change 1500 1500 1 32 = 16 := by
    unfold calculate_elo_change
    rw [hself, show (32 : ℝ) * (1 - 1 / 2) = ((16 : ℤ) : ℝ) by norm_num,
      pyround_intCast]
  have e2 : calculate_elo_change 1500 1500 0 48 = -24 := by
    unfold calculate_elo_change
    rw [hself, show (48 : ℝ) * (0 - 1 / 2) = ((-24 : ℤ) : ℝ) by norm_num,
      pyround_intCast]
  rw [e1, e2]
  decide

/-! ## Match-completion signal handler (signals.py) -/

/-- The evaluation of `[c.player_id for c in instance.confirmations.all()]`
(signals.py line 67): the queryset yields Player objects, and Player has no
`player_id` attribute (models.py builds the same set with `c.id`), so the
comprehension raises AttributeError as soon as it has one element to
evaluate; only over an empty queryset does it produce a value, the empty
list. -/
def confirmedPlayerIdsComprehension (st : State) (m : Match) :
    Except Unit (List Nat) :=
  if (confirmedIds st m).isEmpty then .ok [] else .error ()

/-- The email loop of handle_match_completion (signals.py): for each
participant with a linked user, a non-empty email address, a profile, and
a verified email, evaluate the confirmed-ids comprehension and email the
player when their id is not in it; errors propagate out of the loop. -/
def emailLoop (st : State) (m : Match) : List Player → Except Unit (List Nat)
  | [] => .ok []
  | p :: rest =>
    match p.user with
    | none => emailLoop st m rest
    | some u =>
      if u.email = "" then emailLoop st m rest
      else if !u.profile.email_verified then emailLoop st m rest
      else
        match confirmedPlayerIdsComprehension st m with
        | .error e => .error e
        | .ok ids =>
          if p.id ∈ ids then emailLoop st m rest
          else (emailLoop st m rest).map fun es => p.id :: es

/-- The auto-confirm branch's bulk_create with ignore_conflicts: insert a
confirmation row for every participant on both teams that does not already
have one. -/
def addConfirmations (st : State) (m : Match) : State :=
  let all_players := getPlayers st (m.team1.players ++ m.team2.players)
  { st with
    confirmations := st.confirmations ++
      ((all_players.filter fun p =>
          !((confirmedIds st m).contains p.id)).map fun p => (m.id, p.id)) }

/-- handle_match_completion (signals.py): a no-op unless the winner was
just set; then either the auto-confirm bulk insert (no emails), or the
email loop followed by update_player_elo. Returns the resulting state and
either the list of player ids emailed or the AttributeError escaping the
email loop. -/
noncomputable def handle_match_completion (st : State) (m : Match)
    (winner_just_set : Bool) : State × Except Unit (List Nat) :=
  if !winner_just_set || m.winner = none then (st, .ok [])
  else if should_auto_confirm st m then (addConfirmations st m, .ok [])
  else
    match emailLoop st m (getPlayers st (m.team1.players ++ m.team2.players)) with
    | .error e => (st, .error e)
    | .ok emails => ((update_player_elo st m).1, .ok emails)

/-- The auto-confirm branch never emails anyone (the first half of the
notification contract, which the code does satisfy). -/
lemma handle_match_completion_auto_confirm_no_emails (st : State) (m : Match)
    (h : should_auto_confirm st m = true) :
    (handle_match_completion st m true).2 = .ok [] := by
  unfold handle_match_completion
  by_cases hw : m.winner = none
  · rw [if_pos (by simp [hw])]
  · rw [if_neg (by simp [hw]), if_pos h]

/-- C8: evaluating the completion handler at a match whose winner was just
set, which does not auto-confirm (both sides verified), and which already
has one Confirmation row: instead of notifying the one unconfirmed
verified participant, the email loop raises AttributeError
(`c.player_id` does not exist on the Player rows the confirmations
queryset yields), and no notification is sent at all. -/
theorem handle_match_completion_attribute_error :
    should_auto_confirm
        ⟨[{ id := 1,
            user := some ({ email := "p1@x.y",
                            profile := { email_verified := true } }),
            elo_rating := 1500, elo_peak := 1500, matches_for_elo := 0 },
          { id := 2,
            user := some ({ email := "p2@x.y",
                            profile := { email_verified := true } }),
            elo_rating := 1500, elo_peak := 1500, matches_for_elo := 0 }],
          [(5, 1)], []⟩
        { id := 5, team1 := { id := 13, players := [1] },
          team2 := { id := 23, players := [2] }, match_type := "casual",
          best_of := 5, winner := some 13 } = false ∧
    handle_match_completion
        ⟨[{ id := 1,
            user := some ({ email := "p1@x.y",
                            profile := { email_verified := true } }),
            elo_rating := 1500, elo_peak := 1500, matches_for_elo := 0 },
          { id := 2,
            user := some ({ email := "p2@x.y",
                            profile := { email_verified := true } }),
            elo_rating := 1500, elo_peak := 1500, matches_for_elo := 0 }],
          [(5, 1)], []⟩
        { id := 5, team1 := { id := 13, players := [1] },
          team2 := { id := 23, players := [2] }, match_type := "casual",
          best_of := 5, winner := some 13 }
        true
      = (⟨[{ id := 1,
             user := some ({ email := "p1@x.y",
                             profile := { email_verified := true } }),
             elo_rating := 1500, elo_peak := 1500, matches_for_elo := 0 },
           { id := 2,
             user := some ({ email := "p2@x.y",
                             profile := { email_verified := true } }),
             elo_rating := 1500, elo_peak := 1500, matches_for_elo := 0 }],
          [(5, 1)], []⟩, .error ()) := by
  constructor
  · decide
  · unfold handle_match_completion
    rw [if_neg (by simp), if_neg (by decide)]
    rfl

/-! ## Batch replay command (management/commands/recalculate_elo.py) -/

/-- The lookup names resolvable in a Match queryset filter: the concrete
model fields of Match (models.py) plus its reverse relations. -/
def match_field_lookups : List String :=
  ["id", "pk", "is_double", "team1", "team2", "championship", "date_played",
   "location", "match_type", "best_of", "winner", "confirmations", "notes",
   "created_at", "updated_at", "games", "elo_history", "matchconfirmation",
   "scheduled_from"]

/-- The characters of a filter keyword before the first `__` separator. -/
def rootAux : List Char → List Char
  | [] => []
  | '_' :: '_' :: _ => []
  | c :: rest => c :: rootAux rest

/-- The model field a Django filter keyword addresses: the part before the
first `__` separator. -/
def filter_root (kw : String) : String := ⟨rootAux kw.data⟩

/-- Whether a filter keyword resolves against the Match model. -/
def lookup_resolvable (kw : String) : Bool :=
  match_field_lookups.contains (filter_root kw)

/-- The keyword arguments of the queryset built by Command.handle
(recalculate_elo.py lines 32–36), in source order. -/
def recalculate_filter_kwargs : List String :=
  ["winner__isnull", "player1_confirmed", "player2_confirmed"]

/-- How one invocation of the command ends. -/
inductive CommandOutcome where
  | fieldError (kw : String)
  | completed
  deriving Repr, DecidableEq

/-- Command.handle (recalculate_elo.py): building the filtered queryset is
the first thing the command does in both dry-run and live mode, and Django
resolves every filter keyword against the Match model right there, raising
FieldError at the first keyword naming no field. Since the remaining body
(count, reset to 1500, history deletion, replay loop) only runs if the
queryset construction succeeds, it is dead code for this keyword list; the
theorem below shows the error branch is always taken, before any state is
touched. -/
def recalculate_handle (dry_run : Bool) (st : State) : State × CommandOutcome :=
  match recalculate_filter_kwargs.find? (fun kw => !(lookup_resolvable kw)) with
  | some kw => (st, .fieldError kw)
  | none => (st, .completed)

/-- C2: every invocation of recalculate_elo — dry-run or not, on any
database state — stops with FieldError on the filter keyword
`player1_confirmed` (the per-player confirmation booleans were removed
from Match in favour of MatchConfirmation rows), touching no player,
match or history state; it never collects, resets or replays anything. -/
theorem recalculate_handle_field_error (dry_run : Bool) (st : State) :
    recalculate_handle dry_run st = (st, .fieldError "player1_confirmed") := by
  have hfind : recalculate_filter_kwargs.find?
      (fun kw => !(lookup_resolvable kw)) = some "player1_confirmed" := by
    decide
  unfold recalculate_handle
  rw [hfind]

/-- Witness for C4: a decided, unconfirmed match whose second side has no
verified member auto-confirms. -/
theorem should_auto_confirm_iff_witness :
    should_auto_confirm
        ⟨[{ id := 1,
            user := some ({ email := "w@x.y",
                            profile := { email_verified := true } }),
            elo_rating := 1500, elo_peak := 1500, matches_for_elo := 0 },
          { id := 2, user := none, elo_rating := 1500, elo_peak := 1500,
            matches_for_elo := 0 }],
          [], []⟩
        { id := 6, team1 := { id := 14, players := [1] },
          team2 := { id := 24, players := [2] }, match_type := "casual",
          best_of := 5, winner := some 14 } = true :=
  (should_auto_confirm_iff _ _).2
    ⟨by decide, by decide, Or.inr (by decide)⟩

/-- Witness for C5: a side with zero verified members is reported confirmed
even with no confirmation rows at all. -/
theorem side_confirmed_iff_verified_members_confirmed_witness :
    team1_confirmed
        ⟨[{ id := 2, user := none, elo_rating := 1500, elo_peak := 1500,
            matches_for_elo := 0 }],
          [], []⟩
        { id := 7, team1 := { id := 15, players := [2] },
          team2 := { id := 25, players := [] }, match_type := "casual",
          best_of := 5, winner := none } = true :=
  (side_confirmed_iff_verified_members_confirmed _ _).2.2.1 (by decide)

/-- Witness for C6: the concrete unequal-K instance named in the theorem. -/
theorem elo_change_negation_iff_equal_k_witness :
    calculate_elo_change 1500 1500 1 32 ≠
      - calculate_elo_change 1500 1500 0 48 :=
  elo_change_negation_iff_equal_k.2

end TTStats
